import Mathlib

/-!
Verification development for the TaskBox chatbot backend.

The Python sources under `src/` are shallowly embedded here:
* strings are `List Char` (Python `str`, ASCII-faithful for the inputs the
  pipeline manipulates);
* floats appearing as confidence scores are embedded as rationals (the code
  only ever constructs the literals 0.1, 0.5, 0.8, 0.95 and compares them
  with the threshold 0.5, so this is exact);
* `re.search` of the CPython `re` module is embedded by a fuel-driven
  backtracking matcher with Python semantics: leftmost start position,
  alternation tries the left branch first, greedy quantifiers prefer longer
  matches, lazy quantifiers prefer shorter ones, capture groups record the
  consumed text;
* database state is a list of todo rows, and each Python function touching
  the database becomes a pure function from store to store.
-/

namespace TaskBox

/-- Convert a Lean string literal to the `List Char` representation used for
Python strings throughout this development. -/
def cs (s : String) : List Char := s.toList

/-- The apostrophe character (U+0027), spliced into reply texts. -/
def apos : Char := Char.ofNat 39

/-- Python `str.isspace` whitespace set restricted to ASCII; this is also the
character set matched by the regex class `\s` on the inputs in question. -/
def pySpace (c : Char) : Bool :=
  c == ' ' || c == '\t' || c == '\n' || c == '\r' || c == Char.ofNat 11 || c == Char.ofNat 12

/-- Python `str.lower` (ASCII). -/
def pyLower (s : List Char) : List Char := s.map Char.toLower

/-- Python `str.strip()` with no arguments: drop whitespace on both ends. -/
def pyStrip (s : List Char) : List Char :=
  ((s.dropWhile pySpace).reverse.dropWhile pySpace).reverse

/-- Python `str.strip("'\"")`: drop quote characters on both ends. -/
def stripQuotes (s : List Char) : List Char :=
  let quote : Char → Bool := fun c => c == '"' || c == apos
  ((s.dropWhile quote).reverse.dropWhile quote).reverse

/-- Python `str.capitalize()`: first character upper-cased, the rest
lower-cased (ASCII). -/
def pyCapitalize : List Char → List Char
  | [] => []
  | c :: rest => c.toUpper :: rest.map Char.toLower

/-- Tests whether `l₁` is a prefix of `l₂` (Boolean). -/
def listStartsWith : List Char → List Char → Bool
  | [], _ => true
  | _ :: _, [] => false
  | a :: as, b :: bs => a == b && listStartsWith as bs

/-- Python substring containment `needle in hay`. -/
def isSubstr (needle : List Char) : List Char → Bool
  | [] => listStartsWith needle []
  | c :: rest => listStartsWith needle (c :: rest) || isSubstr needle rest

/-- Python `str.split()` with no arguments: split on whitespace runs,
dropping empty fields. `acc` holds the current word reversed. -/
def pySplitAux : List Char → List Char → List (List Char)
  | [], acc => if acc.isEmpty then [] else [acc.reverse]
  | c :: rest, acc =>
      if pySpace c then
        if acc.isEmpty then pySplitAux rest [] else acc.reverse :: pySplitAux rest []
      else pySplitAux rest (c :: acc)

/-- Python `str.split()` (whitespace tokenization). -/
def pySplit (s : List Char) : List (List Char) := pySplitAux s []

/-- Python `" ".join(words)`. -/
def joinSpace (ws : List (List Char)) : List Char := List.intercalate (cs " ") ws

/-- Decimal rendering of a natural number (Python `str(n)` / f-string
interpolation of an `int`), fuel-driven so that it reduces in the kernel. -/
def natToCharsAux : Nat → Nat → List Char → List Char
  | 0, _, acc => acc
  | fuel + 1, n, acc =>
      let d := Char.ofNat (48 + n % 10)
      if n < 10 then d :: acc else natToCharsAux fuel (n / 10) (d :: acc)

/-- Decimal rendering of a natural number. -/
def natToChars (n : Nat) : List Char := natToCharsAux (n + 1) n []

/-! ## Regex engine

A backtracking matcher for the fragment of Python `re` used by
`src/utils/message_parser.py`: literal characters, `.`, `\s`, alternation,
concatenation, greedy and lazy `*` (from which `+`, `+?` and `?` are
derived) and capture groups.  `re.search` semantics: try each start
position from the left; at a given position explore alternatives in
pattern order, greedy loops longest-first, lazy loops shortest-first. -/

/-- Regex abstract syntax. `star r lazyFlag` is `r*` (lazy when the flag is
set); a capture group records the text it consumed under its index. -/
inductive Regex where
  | eps : Regex
  | chr : Char → Regex
  | dot : Regex
  | ws : Regex
  | alt : Regex → Regex → Regex
  | cat : Regex → Regex → Regex
  | star : Regex → Bool → Regex
  | group : Nat → Regex → Regex
deriving Repr

/-- Captures: association list from group index to captured text; the most
recent binding for an index is found first. -/
abbrev Caps := List (Nat × List Char)

/-- Core backtracking matcher in continuation-passing style.  `mtch fuel r s
caps k` matches `r` against a prefix of `s`, extending `caps`, and calls the
continuation `k` with the updated captures and the remaining input.  The
first success in Python exploration order is returned.  Fuel bounds the
recursion depth; every value produced with sufficient fuel agrees with the
un-fuelled backtracking semantics. -/
def mtch : Nat → Regex → List Char → Caps →
    (Caps → List Char → Option Caps) → Option Caps
  | 0, _, _, _, _ => none
  | fuel + 1, r, s, caps, k =>
    match r with
    | .eps => k caps s
    | .chr c =>
        match s with
        | [] => none
        | c' :: rest => if c' == c then k caps rest else none
    | .dot =>
        match s with
        | [] => none
        | c' :: rest => if c' == '\n' then none else k caps rest
    | .ws =>
        match s with
        | [] => none
        | c' :: rest => if pySpace c' then k caps rest else none
    | .alt r1 r2 =>
        match mtch fuel r1 s caps k with
        | some res => some res
        | none => mtch fuel r2 s caps k
    | .cat r1 r2 => mtch fuel r1 s caps (fun caps' s' => mtch fuel r2 s' caps' k)
    | .star r1 lzy =>
        if lzy then
          match k caps s with
          | some res => some res
          | none => mtch fuel r1 s caps (fun caps' s' => mtch fuel (.star r1 lzy) s' caps' k)
        else
          match mtch fuel r1 s caps (fun caps' s' => mtch fuel (.star r1 lzy) s' caps' k) with
          | some res => some res
          | none => k caps s
    | .group i r1 =>
        mtch fuel r1 s caps
          (fun caps' s' => k ((i, s.take (s.length - s'.length)) :: caps') s')

/-- Fuel budget: generous linear bound; all quantified sub-expressions in the
embedded patterns consume at least one character per iteration, so depth is
bounded by pattern size plus input length. -/
def reFuel (s : List Char) : Nat := 4 * s.length + 400

/-- Try to match `r` at each start position from the left (Python
`re.search`), returning the captures of the first match. -/
def reSearchAux (fuel : Nat) (r : Regex) : List Char → Option Caps
  | [] => mtch fuel r [] [] (fun caps _ => some caps)
  | c :: rest =>
    match mtch fuel r (c :: rest) [] (fun caps _ => some caps) with
    | some caps => some caps
    | none => reSearchAux fuel r rest

/-- Python `re.search(pattern, s)`: `some` captures on a match, `none`
otherwise. -/
def reSearch (r : Regex) (s : List Char) : Option Caps :=
  reSearchAux (reFuel s) r s

/-- Python `match.groups()[i-1]` for 1-based group index `i`: the captured
text, or `none` when the group did not participate in the match. -/
def groupGet (caps : Caps) (i : Nat) : Option (List Char) :=
  (caps.find? (fun p => p.1 == i)).map (·.2)

/-! Combinators used to transcribe the concrete patterns. -/

/-- Literal string regex. -/
def lit (s : String) : Regex := s.toList.foldr (fun c r => .cat (.chr c) r) .eps

/-- Left-biased alternation of a non-empty list (first alternative preferred,
as in Python). -/
def alts : List Regex → Regex
  | [] => .eps
  | [r] => r
  | r :: rest => .alt r (alts rest)

/-- Concatenation of a list of regexes. -/
def rcat (l : List Regex) : Regex := l.foldr .cat .eps

/-- Embedding of `\s+`. -/
def wsP : Regex := .cat .ws (.star .ws false)

/-- Greedy `r?`. -/
def ropt (r : Regex) : Regex := .alt r .eps

/-- Lazy `.+?`. -/
def dotPlusLazy : Regex := .cat .dot (.star .dot true)

/-- Greedy `.+`. -/
def dotPlus : Regex := .cat .dot (.star .dot false)

/-- Greedy `.*`. -/
def dotStar : Regex := .star .dot false

/-! ## The pattern lists of `MessageParser.__init__`
(src/utils/message_parser.py lines 19-54).  Each entry keeps, next to the
compiled regex, the number of capturing groups of the original pattern,
because Python's `len(match.groups())` is determined by the pattern alone. -/

/-- A compiled pattern together with its static capture-group count. -/
structure Pat where
  re : Regex
  ngroups : Nat

/-- Embedding of `(?:the\s+)?` -/
def optThe : Regex := ropt (rcat [lit "the", wsP])

/-- Embedding of `(?:my\s+)?` -/
def optMy : Regex := ropt (rcat [lit "my", wsP])

/-- Embedding of `(?:a\s+|an\s+|the\s+)?` -/
def optArticle : Regex :=
  ropt (alts [rcat [lit "a", wsP], rcat [lit "an", wsP], rcat [lit "the", wsP]])

/-- Embedding of `(add|create|make|new)` -/
def createVerb : Regex := alts [lit "add", lit "create", lit "make", lit "new"]

/-- Embedding of `self.create_patterns` (lines 19-26). -/
def create_patterns : List Pat :=
  [ ⟨rcat [.group 1 createVerb, wsP, optArticle, .group 2 dotPlusLazy, wsP,
      lit "to", wsP, lit "my", wsP, lit "list"], 2⟩
  , ⟨rcat [.group 1 createVerb, wsP, optArticle, .group 2 dotPlusLazy, wsP,
      ropt (rcat [lit "to", wsP, lit "my", wsP]),
      alts [lit "task", lit "todo", lit "to-do"], wsP, lit "list"], 2⟩
  , ⟨rcat [.group 1 createVerb, wsP, .group 2 dotPlus], 2⟩
  , ⟨rcat [lit "i", wsP, lit "need", wsP, lit "to", wsP, .group 1 dotPlus], 1⟩
  , ⟨rcat [lit "don", ropt (.chr apos), lit "t", wsP, lit "forget", wsP,
      lit "to", wsP, .group 1 dotPlus], 1⟩
  , ⟨rcat [lit "remind", wsP, lit "me", wsP, lit "to", wsP, .group 1 dotPlus], 1⟩ ]

/-- Embedding of `self.read_patterns` (lines 28-36). -/
def read_patterns : List Pat :=
  [ ⟨rcat [.group 1 (alts [lit "show", lit "display", lit "list", lit "view", lit "see",
      rcat [lit "what", dotStar, lit "have"], rcat [lit "what", dotStar, lit "got"]]),
      wsP, optMy, alts [lit "tasks", lit "todos", lit "to-dos", lit "list", lit "task"]], 1⟩
  , ⟨rcat [.group 1 (alts [lit "what", lit "which"]), wsP,
      alts [lit "tasks", lit "todos", lit "to-dos"], wsP,
      alts [rcat [lit "do", wsP, lit "i", wsP, lit "have"],
            rcat [lit "are", wsP, lit "on", wsP, lit "my", wsP, lit "list"]]], 1⟩
  , ⟨rcat [lit "my", wsP, ropt (rcat [lit "current", wsP]),
      alts [lit "tasks", lit "todos", lit "to-dos"]], 0⟩
  , ⟨rcat [lit "help", wsP, lit "me", wsP, lit "organize"], 0⟩
  , ⟨rcat [lit "what", wsP, lit "should", wsP, lit "i", wsP, lit "do"], 0⟩
  , ⟨rcat [lit "show", wsP, optMy, lit "tasks"], 0⟩
  , ⟨rcat [lit "list", wsP, optMy, lit "tasks"], 0⟩ ]

/-- Embedding of `self.complete_patterns` (lines 38-43). -/
def complete_patterns : List Pat :=
  [ ⟨rcat [.group 1 (alts [lit "complete", lit "finish", lit "done", lit "completed",
      lit "finished"]), wsP, optThe, .group 2 dotPlusLazy], 2⟩
  , ⟨rcat [.group 1 (alts [lit "mark", lit "set"]), wsP, optThe, .group 2 dotPlusLazy,
      wsP, ropt (rcat [lit "as", wsP]),
      .group 3 (alts [lit "complete", lit "done", lit "finished"])], 3⟩
  , ⟨rcat [lit "i", wsP, ropt (rcat [lit "have", wsP]),
      .group 1 (alts [lit "completed", lit "finished", lit "done"]), wsP, optThe,
      .group 2 dotPlusLazy], 2⟩
  , ⟨rcat [lit "cross", wsP, optThe, .group 1 dotPlusLazy, wsP, lit "off", wsP,
      optMy, alts [lit "list", lit "tasks"]], 1⟩ ]

/-- Embedding of `self.update_patterns` (lines 45-49). -/
def update_patterns : List Pat :=
  [ ⟨rcat [.group 1 (alts [lit "change", lit "update", lit "edit", lit "modify"]), wsP,
      optThe, .group 2 dotPlusLazy, wsP, alts [lit "to", lit "as"], wsP,
      .group 3 dotPlus], 3⟩
  , ⟨rcat [.group 1 (alts [lit "update", lit "change", lit "edit", lit "modify"]), wsP,
      optThe, .group 2 dotPlusLazy], 2⟩
  , ⟨rcat [lit "rename", wsP, optThe, .group 1 dotPlusLazy, wsP,
      alts [lit "to", lit "as"], wsP, .group 2 dotPlus], 2⟩ ]

/-- Embedding of `self.delete_patterns` (lines 51-54). -/
def delete_patterns : List Pat :=
  [ ⟨rcat [.group 1 (alts [lit "delete", lit "remove", lit "eliminate", lit "get rid of"]),
      wsP, optThe, .group 2 dotPlusLazy], 2⟩
  , ⟨rcat [.group 1 (alts [lit "delete", lit "remove", lit "eliminate", lit "get rid of"]),
      wsP, alts [lit "task", lit "todo", lit "to-do"], wsP,
      alts [lit "named", lit "called", lit "titled"], wsP, .group 2 dotPlusLazy], 2⟩ ]

/-! ## Intent classification (`MessageParser.parse_intent`, lines 56-115) -/

/-- Embedding of `TaskAction` (src/utils/task_enums.py). -/
inductive TaskAction where
  | CREATE | READ | UPDATE | DELETE | COMPLETE | NONE
deriving DecidableEq, Repr

/-- Embedding of `TaskAction.value`: the string tag of each action. -/
def TaskAction.value : TaskAction → List Char
  | .CREATE => cs "CREATE"
  | .READ => cs "READ"
  | .UPDATE => cs "UPDATE"
  | .DELETE => cs "DELETE"
  | .COMPLETE => cs "COMPLETE"
  | .NONE => cs "NONE"

/-- Embedding of `IntentResult` (message_parser.py lines 11-13); the float confidence is
embedded as a rational. -/
structure IntentResult where
  action : TaskAction
  confidence : ℚ
deriving DecidableEq, Repr

/-- The float literal `0.1`, as a rational in lowest terms. -/
def conf010 : ℚ := ⟨1, 10, by norm_num, by norm_num⟩

/-- The float literal `0.5` (also the orchestrator's confidence threshold). -/
def conf050 : ℚ := ⟨1, 2, by norm_num, by norm_num⟩

/-- The float literal `0.8`. -/
def conf080 : ℚ := ⟨4, 5, by norm_num, by norm_num⟩

/-- The float literal `0.95`. -/
def conf095 : ℚ := ⟨19, 20, by norm_num, by norm_num⟩

/-- Does any pattern in the group match (the `for pattern in …: if
re.search(…): return` loop shape)? -/
def anyPattern (ps : List Pat) (m : List Char) : Bool :=
  ps.any (fun p => (reSearch p.re m).isSome)

/-- Embedding of `MessageParser.parse_intent` (lines 56-115).  The `current_tasks`
argument is accepted and ignored exactly as in the source.  A falsy (empty)
message short-circuits to `(NONE, 0.1)`; the `except` branch (lines
110-115) is unreachable in this pure embedding. -/
def parse_intent (message : List Char) (_current_tasks : List α) : IntentResult :=
  if message.isEmpty then ⟨.NONE, conf010⟩
  else
    let m := pyStrip (pyLower message)
    if anyPattern complete_patterns m then ⟨.COMPLETE, conf095⟩
    else if anyPattern create_patterns m then ⟨.CREATE, conf095⟩
    else if anyPattern read_patterns m then ⟨.READ, conf095⟩
    else if anyPattern update_patterns m then ⟨.UPDATE, conf095⟩
    else if anyPattern delete_patterns m then ⟨.DELETE, conf095⟩
    else if isSubstr (cs "complete") m || isSubstr (cs "done") m || isSubstr (cs "finish") m then
      ⟨.COMPLETE, conf080⟩
    else if isSubstr (cs "add") m || isSubstr (cs "create") m || isSubstr (cs "new") m then
      ⟨.CREATE, conf080⟩
    else if isSubstr (cs "show") m || isSubstr (cs "list") m || isSubstr (cs "view") m
        || isSubstr (cs "see") m then
      ⟨.READ, conf080⟩
    else if isSubstr (cs "update") m || isSubstr (cs "edit") m || isSubstr (cs "change") m then
      ⟨.UPDATE, conf080⟩
    else if isSubstr (cs "delete") m || isSubstr (cs "remove") m then
      ⟨.DELETE, conf080⟩
    else ⟨.NONE, conf050⟩

/-! ## Title extraction (`MessageParser.extract_task_title`, lines 117-154) -/

/-- Embedding of `MessageParser.extract_task_title`: first matching create pattern wins;
`groups[1]` when the pattern has more than one group, else `groups[0]`,
else the stripped original message; the result is whitespace-stripped,
quote-stripped and capitalized.  When a selected group did not participate
in the match the original raises `AttributeError` and the `except` branch
(lines 150-154) returns `message.strip().capitalize()`. -/
def extract_task_title (message : List Char) : List Char :=
  if message.isEmpty then []
  else
    let m := pyStrip (pyLower message)
    match create_patterns.findSome?
        (fun p => (reSearch p.re m).map (fun caps => (p.ngroups, caps))) with
    | some (ng, caps) =>
        let sel : Option (List Char) :=
          if ng > 1 then groupGet caps 2
          else if ng == 1 then groupGet caps 1
          else some (pyStrip message)
        match sel with
        | some t => pyCapitalize (stripQuotes (pyStrip t))
        | none => pyCapitalize (pyStrip message)
    | none => pyCapitalize (stripQuotes (pyStrip message))

/-- Embedding of `MessageParser.extract_updated_task_title` (lines 196-224): re-applies
the update patterns to the lower-cased (not stripped) message; a matching
pattern yields `groups[2]` when it has more than two groups, else
`groups[1]` when it has more than one, stripped and capitalized; otherwise
the scan continues and the function returns `none` when nothing yields. -/
def extract_updated_task_title (message : List Char) : Option (List Char) :=
  if message.isEmpty then none
  else
    let m := pyLower message
    (update_patterns.findSome? (fun p =>
      match reSearch p.re m with
      | some caps =>
          if p.ngroups > 2 then groupGet caps 3
          else if p.ngroups > 1 then groupGet caps 2
          else none
      | none => none)).map (fun t => pyCapitalize (pyStrip t))

/-! ## Data model

`Todo` rows (src/models/todo.py) are embedded with their UUID columns as
their string renderings and their date/datetime columns as their ISO-8601
string renderings, which is the only way the chat subsystem ever consumes
them.  The database session is a list of rows in select order. -/

/-- A persisted todo row. Optional columns mirror the attribute accesses
`t.description or ""`, `t.priority or "Medium"`, `t.category or "Personal"`,
`t.due_date.isoformat() if t.due_date else None` in `todos_to_dicts`. -/
structure Todo where
  id : List Char
  user_id : List Char
  title : List Char
  description : Option (List Char)
  is_completed : Bool
  priority : Option (List Char)
  category : Option (List Char)
  due_date : Option (List Char)
  created_at : Option (List Char)
  updated_at : Option (List Char)
deriving DecidableEq, Repr

/-- A task snapshot dict as produced by `todos_to_dicts`
(src/services/chat_service.py lines 41-56) and by the API serializers. -/
structure TaskSnap where
  id : List Char
  user_id : List Char
  title : List Char
  description : List Char
  is_completed : Bool
  priority : List Char
  category : List Char
  due_date : Option (List Char)
  created_at : Option (List Char)
  updated_at : Option (List Char)
deriving DecidableEq, Repr

/-- Embedding of `todos_to_dicts` applied to one row (chat_service.py lines 41-56). -/
def todoToDict (t : Todo) : TaskSnap :=
  { id := t.id
  , user_id := t.user_id
  , title := t.title
  , description := t.description.getD []
  , is_completed := t.is_completed
  , priority := t.priority.getD (cs "Medium")
  , category := t.category.getD (cs "Personal")
  , due_date := t.due_date
  , created_at := t.created_at
  , updated_at := t.updated_at }

/-- Embedding of `todos_to_dicts` (chat_service.py lines 41-56). -/
def todos_to_dicts (ts : List Todo) : List TaskSnap := ts.map todoToDict

/-- Embedding of `TodoCreate` (src/schemas/todo.py) with the fields the chat path
populates. -/
structure TodoCreate where
  title : List Char
  description : Option (List Char)
  is_completed : Bool
  priority : List Char
  category : Option (List Char)
  due_date : Option (List Char)
deriving DecidableEq, Repr

/-- Embedding of `TodoUpdate` (src/schemas/todo.py): `none` fields are unset and are
skipped by `model_dump(exclude_unset=True)` in `TodoService.update_todo`. -/
structure TodoUpdate where
  title : Option (List Char) := none
  description : Option (List Char) := none
  is_completed : Option Bool := none
  priority : Option (List Char) := none
  category : Option (List Char) := none
  due_date : Option (Option (List Char)) := none
deriving DecidableEq, Repr

/-- Embedding of `TodoService.get_todos_by_user` with the default arguments used by the
chat subsystem (`skip=0`, `limit=100`, no filters)
(src/services/todo_service.py lines 52-121). -/
def get_todos_by_user (store : List Todo) (uid : List Char) : List Todo :=
  (store.filter (fun t => t.user_id == uid)).take 100

/-- Embedding of `TodoService.create_todo` (todo_service.py lines 9-33): appends a row
built from the creation data, a fresh id, and the creation timestamps. -/
def create_todo (store : List Todo) (data : TodoCreate) (uid freshId now : List Char) :
    List Todo :=
  store ++ [{ id := freshId, user_id := uid, title := data.title
            , description := data.description, is_completed := data.is_completed
            , priority := some data.priority, category := data.category
            , due_date := data.due_date, created_at := some now
            , updated_at := some now }]

/-- The row predicate of the service queries:
`Todo.id == todo_id, Todo.user_id == user_id`. -/
def rowKey (tid uid : List Char) (t : Todo) : Bool :=
  t.id == tid && t.user_id == uid

/-- Application of the set fields of a `TodoUpdate` plus the
`updated_at = datetime.utcnow()` stamp (todo_service.py lines 146-151). -/
def applyUpdate (u : TodoUpdate) (now : List Char) (t : Todo) : Todo :=
  { t with
    title := u.title.getD t.title
  , description := match u.description with | some d => some d | none => t.description
  , is_completed := u.is_completed.getD t.is_completed
  , priority := match u.priority with | some p => some p | none => t.priority
  , category := match u.category with | some c => some c | none => t.category
  , due_date := u.due_date.getD t.due_date
  , updated_at := some now }

/-- Embedding of `TodoService.update_todo` (todo_service.py lines 123-158), state effect:
no row with the key leaves the store untouched, otherwise the keyed row is
updated in place. -/
def update_todo (store : List Todo) (tid : List Char) (u : TodoUpdate)
    (uid now : List Char) : List Todo :=
  match store.find? (rowKey tid uid) with
  | none => store
  | some _ => store.map (fun t => if rowKey tid uid t then applyUpdate u now t else t)

/-- Embedding of `TodoService.delete_todo` (todo_service.py lines 160-184), state effect:
the keyed row is removed (removing nothing when no row matches). -/
def delete_todo (store : List Todo) (tid uid : List Char) : List Todo :=
  store.filter (fun t => !(rowKey tid uid t))

/-- Embedding of `TodoService.toggle_todo_completion` (todo_service.py lines 186-218),
state effect: flip `is_completed` of the keyed row and stamp `updated_at`. -/
def toggle_todo_completion (store : List Todo) (tid uid now : List Char) : List Todo :=
  match store.find? (rowKey tid uid) with
  | none => store
  | some _ =>
      store.map (fun t =>
        if rowKey tid uid t then
          { t with is_completed := !t.is_completed, updated_at := some now }
        else t)

/-! ## Response composer
(src/utils/taskie_responses.py and src/utils/emoji_utils.py) -/

/-- Variant of `cs` with `*` standing for the apostrophe, to keep reply texts faithful
to the source while avoiding quote characters inside string literals. -/
def csq (s : String) : List Char :=
  s.toList.map (fun c => if c == '*' then apos else c)

/-- The dict shape consumed by `format_task_response`: only these keys are
read, with `task.get` defaults `''` for priority/category and `None` for the
due date (the callers in the chat service supply title and completion). -/
structure FmtTask where
  title : List Char
  is_completed : Bool
  priority : List Char := []
  category : List Char := []
  due_date : Option (List Char) := none
deriving DecidableEq, Repr

/-- Embedding of `get_task_status_emoji` (emoji_utils.py). -/
def get_task_status_emoji (b : Bool) : List Char :=
  if b then cs "✅" else cs "📝"

/-- Embedding of `get_priority_emoji` (emoji_utils.py). -/
def get_priority_emoji (p : List Char) : List Char :=
  if pyLower p == cs "high" then cs "🔴"
  else if pyLower p == cs "medium" then cs "🟡"
  else if pyLower p == cs "low" then cs "🟢"
  else cs "⚪"

/-- Embedding of `get_category_emoji` (emoji_utils.py). -/
def get_category_emoji (c : List Char) : List Char :=
  if pyLower c == cs "work" then cs "💼"
  else if pyLower c == cs "personal" then cs "🏠"
  else if pyLower c == cs "study" then cs "📚"
  else if pyLower c == cs "custom" then cs "⚙️"
  else cs "📋"

/-- The fixed friendly empty-collection reply, shared verbatim by
`format_task_response`, `_handle_read_tasks` and the keyword read
fallback. -/
def noTasksReply : List Char :=
  csq "You don*t have any tasks on your list right now! Would you like to add one? 😊"

/-- One numbered line of `format_task_response`. -/
def fmtLine (i : Nat) (t : FmtTask) : List Char :=
  natToChars i ++ cs ". " ++ get_task_status_emoji t.is_completed ++ cs " "
    ++ t.title ++ cs " " ++ get_priority_emoji t.priority ++ get_category_emoji t.category
    ++ (match t.due_date with
        | some d => cs " 📅 " ++ d
        | none => [])

/-- The numbered lines, `enumerate(tasks, 1)`. -/
def fmtLines : Nat → List FmtTask → List (List Char)
  | _, [] => []
  | i, t :: rest => fmtLine i t :: fmtLines (i + 1) rest

/-- Embedding of `format_task_response` (taskie_responses.py lines 8-33). -/
def format_task_response (tasks : List FmtTask) : List Char :=
  if tasks.isEmpty then noTasksReply
  else List.intercalate (cs "\n") (cs "Here are your current tasks:" :: fmtLines 1 tasks)

/-! ## ChatService (src/services/chat_service.py)

The result envelope and the per-call context.  The context carries the
values of the impure calls made along a single invocation:
`get_random_positive_emoji()`, `datetime.utcnow().isoformat()`, the fresh
UUID minted for a created row, and the index drawn by `random.choice`. -/

/-- The four-field result envelope. -/
structure Envelope where
  reply : List Char
  action_performed : List Char
  updated_tasks : List TaskSnap
  success : Bool
deriving DecidableEq, Repr

/-- Impure inputs of one `process_message` invocation. -/
structure Ctx where
  emoji : List Char
  now : List Char
  freshId : List Char
  rand : Nat
deriving Repr

/-- Refusal replies of the five handlers when no valid user account is
resolvable (chat_service.py lines 175, 209, 242, 278, 320).  The complete
and update handlers share the `update` wording. -/
def refusalCreate : List Char :=
  csq "I*m sorry, I can*t create tasks without a valid user account. Please try logging in again. 😊"

/-- Refusal reply of the read handler. -/
def refusalRead : List Char :=
  csq "I*m sorry, I can*t access tasks without a valid user account. Please try logging in again. 😊"

/-- Refusal reply of the complete and update handlers. -/
def refusalUpdate : List Char :=
  csq "I*m sorry, I can*t update tasks without a valid user account. Please try logging in again. 😊"

/-- Refusal reply of the delete handler. -/
def refusalDelete : List Char :=
  csq "I*m sorry, I can*t delete tasks without a valid user account. Please try logging in again. 😊"

/-- The "couldn't find that task" reply of the complete and delete handlers
(lines 258, 336), which appends the rendered current task collection. -/
def notFoundReply (tasks : List FmtTask) : List Char :=
  csq "I couldn*t find that task in your list. Here are your current tasks: "
    ++ format_task_response tasks

/-- Projection from a row to the dict shape handed to
`format_task_response` by the read, complete and delete handlers. -/
def todoToFmt (t : Todo) : FmtTask := { title := t.title, is_completed := t.is_completed }

/-- The inline title matcher of `_handle_complete_task`,
`_handle_update_task` and `_handle_delete_task` (chat_service.py lines
249-252, 285-288, 327-330): scan the fetched rows in order and return the
first whose lower-cased title occurs inside the lower-cased message. -/
def find_task_by_mention (message : List Char) (tasks : List Todo) : Option Todo :=
  tasks.find? (fun t => isSubstr (pyLower t.title) (pyLower message))

/-- Embedding of `_handle_create_task` (lines 167-199): reply and resulting store. -/
def handle_create_task (store : List Todo) (uid : Option (List Char))
    (message : List Char) (ctx : Ctx) : List Char × List Todo :=
  match uid with
  | none => (refusalCreate, store)
  | some u =>
      let task_title := extract_task_title message
      if task_title.isEmpty then
        (csq "I couldn*t understand the task you want to add. Could you please rephrase that? "
          ++ ctx.emoji, store)
      else
        (csq "Great! I*ve added *" ++ task_title
            ++ csq "* to your task list. You*ve got this! " ++ ctx.emoji,
         create_todo store
           { title := task_title, description := some [], is_completed := false
           , priority := cs "Medium", category := some (cs "Personal"), due_date := none }
           u ctx.freshId ctx.now)

/-- Embedding of `_handle_read_tasks` (lines 201-232). -/
def handle_read_tasks (store : List Todo) (uid : Option (List Char)) : List Char :=
  match uid with
  | none => refusalRead
  | some u =>
      let tasks := get_todos_by_user store u
      if tasks.isEmpty then noTasksReply
      else format_task_response (tasks.map todoToFmt)

/-- Embedding of `_handle_complete_task` (lines 234-268). -/
def handle_complete_task (store : List Todo) (uid : Option (List Char))
    (message : List Char) (ctx : Ctx) : List Char × List Todo :=
  match uid with
  | none => (refusalUpdate, store)
  | some u =>
      let tasks := get_todos_by_user store u
      match find_task_by_mention message tasks with
      | none => (notFoundReply (tasks.map todoToFmt), store)
      | some t =>
          (csq "Awesome job! I*ve marked *" ++ t.title ++ csq "* as completed. Way to go! 🎉",
           update_todo store t.id { is_completed := some true } u ctx.now)

/-- The inline replacement-title derivation of `_handle_update_task`
(lines 291-296): whitespace-tokenize the lower-cased message, locate the
first literal word `to`, and join everything after it. -/
def update_new_title (message : List Char) : Option (List Char) :=
  let words := pySplit (pyLower message)
  match words.findIdx? (fun w => w == cs "to") with
  | none => none
  | some i => if i + 1 < words.length then some (joinSpace (words.drop (i + 1))) else none

/-- Embedding of `_handle_update_task` (lines 270-310). The `if nt.isEmpty` test mirrors
the Python truthiness check `not new_title`. -/
def handle_update_task (store : List Todo) (uid : Option (List Char))
    (message : List Char) (ctx : Ctx) : List Char × List Todo :=
  match uid with
  | none => (refusalUpdate, store)
  | some u =>
      let tasks := get_todos_by_user store u
      match find_task_by_mention message tasks, update_new_title message with
      | some t, some nt =>
          if nt.isEmpty then
            (csq "I couldn*t understand which task to update or what the new details should be. Could you please clarify? "
              ++ ctx.emoji, store)
          else
            (csq "Got it! I*ve updated *" ++ t.title ++ csq "* to *" ++ nt
                ++ csq "*. Looking good! ✨",
             update_todo store t.id { title := some nt } u ctx.now)
      | _, _ =>
          (csq "I couldn*t understand which task to update or what the new details should be. Could you please clarify? "
            ++ ctx.emoji, store)

/-- Embedding of `_handle_delete_task` (lines 312-345). -/
def handle_delete_task (store : List Todo) (uid : Option (List Char))
    (message : List Char) (ctx : Ctx) : List Char × List Todo :=
  match uid with
  | none => (refusalDelete, store)
  | some u =>
      let tasks := get_todos_by_user store u
      match find_task_by_mention message tasks with
      | none => (notFoundReply (tasks.map todoToFmt), store)
      | some t =>
          (csq "Done! I*ve removed *" ++ t.title ++ csq "* from your task list. " ++ ctx.emoji,
           delete_todo store t.id u)

/-- Embedding of `_handle_general_request` (lines 347-357). -/
def generalReply : List Char :=
  csq "Hey there! I*m Taskie, your friendly task assistant! 😊 I can help you add, view, update, complete, or delete tasks. Just tell me what you*d like to do!"

/-- Embedding of `_is_greeting` — the second definition at lines 544-549, which overrides
the first one in the Python class body: exact membership of the lower-cased,
stripped message in the fixed greeting list. -/
def is_greeting (message : List Char) : Bool :=
  [cs "hi", cs "hello", cs "hey", cs "good morning", cs "good afternoon",
   cs "good evening", cs "hi there", cs "hello there"].contains (pyStrip (pyLower message))

/-- Embedding of `_handle_greeting` (lines 371-386) for a resolvable user, which is the
only way the orchestrator calls it. -/
def handle_greeting (store : List Todo) (uid : List Char) : List Char :=
  let tasks := get_todos_by_user store uid
  if tasks.isEmpty then
    csq "Hello there! 👋 I*m Taskie, your friendly task assistant! It looks like you don*t have any tasks on your list yet. Would you like to add a new task? 😊"
  else
    csq "Hello! 👋 I*m Taskie, your friendly task assistant! You currently have "
      ++ natToChars tasks.length ++ csq " tasks, with "
      ++ natToChars (tasks.filter (·.is_completed)).length
      ++ csq " completed. How can I help you today? 😊"

/-- The three fallback apology templates (lines 393-397); the first embeds
the first 30 characters of the message. -/
def fallback_responses (message : List Char) : List (List Char) :=
  [ csq "I*m not quite sure what you mean by *" ++ message.take 30
      ++ csq "...*. Could you rephrase that? I can help with adding, viewing, updating, completing, or deleting tasks! 😊"
  , csq "Sorry, I didn*t quite understand that. You can ask me to add, view, update, complete, or delete tasks. What would you like to do? 🤔"
  , csq "Hmm, I*m having trouble understanding your request. Try telling me something like *Add buy groceries* or *Show my tasks*. I*m here to help! 💪" ]

/-- Embedding of `_handle_fallback_response` (lines 388-407); `random.choice` is embedded
by the drawn index `rand` reduced modulo 3. -/
def handle_fallback_response (message : List Char) (current_tasks : List TaskSnap)
    (rand : Nat) : Envelope :=
  { reply := ((fallback_responses message).getD (rand % 3) [])
  , action_performed := TaskAction.NONE.value
  , updated_tasks := current_tasks
  , success := true }

/-- Embedding of `_is_guidance_request` (lines 409-420). -/
def is_guidance_request (message : List Char) : Bool :=
  [cs "suggest", cs "recommend", cs "advice", cs "tips", cs "help me organize",
   cs "how should", cs "what should", cs "guide", cs "guidance", cs "productivity",
   cs "better way", cs "improve", cs "assist", cs "motivate", cs "encourage"].any
    (fun ind => isSubstr ind (pyLower message))

/-- The guidance text of `_provide_guidance` (lines 426-463). -/
def guidanceText (current_tasks : List TaskSnap) : List Char :=
  if current_tasks.isEmpty then
    csq "It looks like you don*t have any tasks on your list right now! That*s a great opportunity to start fresh. 🌟 Consider adding tasks that align with your goals for today. Remember, even small steps lead to big achievements! 💪 What would you like to accomplish today? 😊"
  else
    let completed_count := (current_tasks.filter (·.is_completed)).length
    let total_count := current_tasks.length
    if completed_count == total_count then
      csq "Congratulations! You*ve completed all " ++ natToChars total_count
        ++ csq " of your tasks! 🎉 Take a moment to celebrate your accomplishments. What new goals would you like to set for yourself? 🌟"
    else if completed_count == 0 then
      csq "I see you have several tasks to tackle! Here*s a tip: Start with the most important or urgent one to build momentum. Breaking larger tasks into smaller steps can make them feel more manageable. You*ve got this! 💪 You currently have "
        ++ natToChars total_count ++ csq " tasks on your list. Which one feels most important to start with? 😊"
    else
      csq "Great progress! You*ve completed " ++ natToChars completed_count
        ++ csq " out of " ++ natToChars total_count ++ csq " tasks. That means you have "
        ++ natToChars (total_count - completed_count)
        ++ csq " tasks left to conquer! 🌟 Keep up the excellent work. Remember to take breaks when needed and celebrate each completed task along the way. 🎉 What would you like to focus on next? 💪"

/-- Embedding of `_provide_guidance` (lines 422-470). -/
def provide_guidance (current_tasks : List TaskSnap) : Envelope :=
  { reply := guidanceText current_tasks
  , action_performed := TaskAction.NONE.value
  , updated_tasks := current_tasks
  , success := true }

/-- The status-progress reply of `_answer_common_questions`
(lines 524-539). -/
def statusReply (current_tasks : List TaskSnap) : List Char :=
  if current_tasks.isEmpty then
    csq "You don*t have any tasks yet, so you*re doing great by staying organized! 🌟 Would you like to add your first task?"
  else
    let completed_count := (current_tasks.filter (·.is_completed)).length
    let total_count := current_tasks.length
    if completed_count == total_count then
      csq "Excellent progress! You*ve completed all " ++ natToChars total_count
        ++ csq " of your tasks! 🎉 Keep up the great work!"
    else
      csq "You*re doing great! You*ve completed " ++ natToChars completed_count
        ++ csq " out of " ++ natToChars total_count ++ csq " tasks. Keep it up! 💪"

/-- Embedding of `_answer_common_questions` (lines 472-542): the five canned-question
branches in source order; `none` when no phrase list matches. -/
def answer_common_questions (message : List Char) (current_tasks : List TaskSnap) :
    Option Envelope :=
  let m := pyStrip (pyLower message)
  let hit : List (List Char) → Bool := fun ps => ps.any (fun p => isSubstr p m)
  let env : List Char → Envelope := fun reply =>
    { reply := reply, action_performed := TaskAction.NONE.value
    , updated_tasks := current_tasks, success := true }
  if hit [cs "how are you", cs "how do you do", csq "how*s it going", cs "how are things"] then
    some (env (csq "I*m doing great, thank you for asking! 😊 I*m here and ready to help you manage your tasks. How can I assist you today?"))
  else if hit [cs "what can you do", cs "help", cs "what do you do", cs "commands", cs "features"] then
    some (env (csq "I*m Taskie, your friendly task assistant! I can help you with:\n• Add new tasks (e.g., *Add buy groceries*)\n• View your tasks (e.g., *Show my tasks*)\n• Update tasks (e.g., *Change buy groceries to buy groceries and milk*)\n• Complete tasks (e.g., *Complete buy groceries*)\n• Delete tasks (e.g., *Delete buy groceries*)\nJust tell me what you*d like to do! 😊"))
  else if hit [cs "who are you", cs "what is your name", csq "what*s your name", cs "introduce yourself"] then
    some (env (csq "I*m Taskie, your friendly task management assistant! 🤖 I help you organize and track your tasks. Nice to meet you! 😊"))
  else if hit [cs "thank you", cs "thanks", cs "thank you very much", cs "thanks a lot"] then
    some (env (csq "You*re very welcome! 😊 I*m always here to help. Is there anything else I can do for you?"))
  else if hit [cs "status", cs "progress", cs "how am i doing", csq "how*s my progress"] then
    some (env (statusReply current_tasks))
  else none

/-- The keyword fallback test of the orchestrator (lines 101-102): one of
show/list/view/see occurs in the lower-cased message together with the
substring `task`. -/
def readKeywordFallback (message : List Char) : Bool :=
  let m := pyLower message
  (isSubstr (cs "show") m || isSubstr (cs "list") m || isSubstr (cs "view") m
    || isSubstr (cs "see") m) && isSubstr (cs "task") m

/-- The working set of a call (lines 66-74): the caller-supplied snapshot
collection, or the fetched rows when the snapshot is empty and a user is
resolvable. -/
def tasksForProcessing (store : List Todo) (uid : Option (List Char))
    (current_tasks : List TaskSnap) : List TaskSnap :=
  match uid with
  | some u =>
      if current_tasks.isEmpty then todos_to_dicts (get_todos_by_user store u)
      else current_tasks
  | none => current_tasks

/-- Embedding of `ChatService.process_message` (lines 25-165): result envelope and
resulting store.  `uid` is `some` exactly when `UUID(user_id)` parses. -/
def process_message (store : List Todo) (uid : Option (List Char)) (message : List Char)
    (current_tasks : List TaskSnap) (ctx : Ctx) : Envelope × List Todo :=
  let tfp := tasksForProcessing store uid current_tasks
  let intent := parse_intent message tfp
  if intent.action == .NONE || decide (intent.confidence < conf050) then
    if is_greeting message && uid.isSome then
      ({ reply := handle_greeting store (uid.getD []), action_performed := TaskAction.NONE.value
       , updated_tasks := tfp, success := true }, store)
    else
      match answer_common_questions message tfp with
      | some env => (env, store)
      | none =>
        if readKeywordFallback message then
          ({ reply := match uid with
              | some u => handle_read_tasks store (some u)
              | none => noTasksReply
           , action_performed := TaskAction.READ.value
           , updated_tasks := tfp, success := true }, store)
        else if is_guidance_request message then (provide_guidance tfp, store)
        else (handle_fallback_response message tfp ctx.rand, store)
  else
    let rs : List Char × List Todo :=
      match intent.action with
      | .CREATE => handle_create_task store uid message ctx
      | .READ => (handle_read_tasks store uid, store)
      | .COMPLETE => handle_complete_task store uid message ctx
      | .UPDATE => handle_update_task store uid message ctx
      | .DELETE => handle_delete_task store uid message ctx
      | .NONE => (generalReply, store)
    let updated := match uid with
      | some u => todos_to_dicts (get_todos_by_user rs.2 u)
      | none => tfp
    ({ reply := rs.1, action_performed := intent.action.value
     , updated_tasks := updated, success := true }, rs.2)

/-! ## API layer (src/api/chat.py) -/

/-- A possibly partial result dict, as consumed by the `/chat` endpoint's
`result.get(…)` calls (chat.py lines 87-92). -/
structure PartialResult where
  reply : Option (List Char) := none
  action_performed : Option (List Char) := none
  updated_tasks : Option (List TaskSnap) := none
  success : Option Bool := none
deriving Repr

/-- The fixed apology reply (chat.py lines 101, 216, 237, 390, 411). -/
def apologyReply : List Char :=
  csq "I*m sorry, I encountered an issue processing your request. Could you try again? 😊"

/-- The apology envelope returned by the `/chat` endpoint when an exception
reaches its boundary (chat.py lines 100-105). -/
def apologyEnvelope : Envelope :=
  { reply := apologyReply, action_performed := cs "NONE", updated_tasks := [], success := false }

/-- The response assembly of the `/chat` endpoint (chat.py lines 77-105):
the happy path fills the four fields with `result.get` defaults; any
exception is caught and turned into the apology envelope. -/
def chat_endpoint_result (r : Except (List Char) PartialResult) : Envelope :=
  match r with
  | .ok p =>
      { reply := p.reply.getD []
      , action_performed := p.action_performed.getD (cs "NONE")
      , updated_tasks := p.updated_tasks.getD []
      , success := p.success.getD true }
  | .error _ => apologyEnvelope

/-- Embedding of `deleted_task_ids = original_task_ids - updated_task_ids`
(chat.py lines 205-207 and 351-353), as the id sub-list of the original
snapshot whose members are absent from the updated snapshot. -/
def compute_deleted_ids (original updated : List TaskSnap) : List (List Char) :=
  (original.map (·.id)).filter (fun i => !((updated.map (·.id)).contains i))

/-- The deletion loop (chat.py lines 209-211). -/
def sync_deletions (store : List Todo) (uid : List Char)
    (original updated : List TaskSnap) : List Todo :=
  (compute_deleted_ids original updated).foldl (fun st i => delete_todo st i uid) store

/-- The post-processing sync of `/chat/process` (chat.py lines 201-211):
only when the envelope reports success, the action is DELETE or COMPLETE
and the caller is authenticated, the id diff is applied as deletions; no
creation or update is ever performed here. -/
def sync_after_chat (success : Bool) (action : List Char) (hasToken : Bool)
    (store : List Todo) (uid : List Char) (original updated : List TaskSnap) : List Todo :=
  if success && (action == cs "DELETE" || action == cs "COMPLETE") && hasToken then
    sync_deletions store uid original updated
  else store

/-- The storage operations issued by one iteration batch of the generic
apply-all-diffs endpoint `/chat/process_public` (chat.py lines 346-383):
snapshots with unseen ids are created, snapshots with known ids are
updated, and the id diff is deleted. -/
structure ReconcileOps where
  creates : List TaskSnap
  updates : List TaskSnap
  deletes : List (List Char)
deriving DecidableEq, Repr

/-- The operation batch of `/chat/process_public` (chat.py lines 346-383). -/
def apply_all_diffs_ops (original updated : List TaskSnap) : ReconcileOps :=
  let oids := original.map (·.id)
  { creates := updated.filter (fun s => !(oids.contains s.id))
  , updates := updated.filter (fun s => oids.contains s.id)
  , deletes := compute_deleted_ids original updated }

/-! ## Reference definitions transcribed from the specification's words
(used only to compare against the source embeddings above). -/

/-- The fixed priority order of pattern groups stated by the spec:
Complete, Create, Read, Update, Delete. -/
def referencePriority : List (TaskAction × List Pat) :=
  [(.COMPLETE, complete_patterns), (.CREATE, create_patterns), (.READ, read_patterns),
   (.UPDATE, update_patterns), (.DELETE, delete_patterns)]

/-- The fallback keyword lists, in the same priority order. -/
def referenceKeywords : List (TaskAction × List (List Char)) :=
  [(.COMPLETE, [cs "complete", cs "done", cs "finish"]),
   (.CREATE, [cs "add", cs "create", cs "new"]),
   (.READ, [cs "show", cs "list", cs "view", cs "see"]),
   (.UPDATE, [cs "update", cs "edit", cs "change"]),
   (.DELETE, [cs "delete", cs "remove"])]

/-- Reference classifier, following the specification text of claim C1: an
empty message yields `(NONE, 0.1)`; otherwise the normalized message is
tried against the pattern groups in priority order and the first group
containing any matching pattern wins with confidence 0.95; failing that, a
substring keyword scan in the same order wins with confidence 0.8; failing
that, `(NONE, 0.5)`. -/
def classify_ref (message : List Char) : IntentResult :=
  if message.isEmpty then ⟨.NONE, conf010⟩
  else
    let m := pyStrip (pyLower message)
    match referencePriority.findSome?
        (fun g => if anyPattern g.2 m then some g.1 else none) with
    | some a => ⟨a, conf095⟩
    | none =>
      match referenceKeywords.findSome?
          (fun g => if g.2.any (fun k => isSubstr k m) then some g.1 else none) with
      | some a => ⟨a, conf080⟩
      | none => ⟨.NONE, conf050⟩

/-- Claim C1: `parse_intent` agrees with the reference classifier on every
message: empty messages yield `(NONE, 0.1)`; otherwise the lower-cased
(and whitespace-normalized) message is tried against the regex pattern
groups in the fixed order Complete, Create, Read, Update, Delete with the
first group containing any matching pattern winning at confidence 0.95,
then against the bare keyword lists in the same order at confidence 0.8,
and finally defaults to `(NONE, 0.5)`. -/
theorem C1_parse_intent_matches_reference (message : List Char) (ts : List TaskSnap) :
    parse_intent message ts = classify_ref message := by
  unfold parse_intent classify_ref referencePriority referenceKeywords
  by_cases h0 : message.isEmpty
  · simp [h0]
  · simp only [h0, Bool.false_eq_true, if_false, List.findSome?_cons, List.findSome?_nil,
      List.any_cons, List.any_nil, Bool.or_false, Bool.or_eq_true]
    set m := pyStrip (pyLower message) with hm
    by_cases h1 : anyPattern complete_patterns m = true
    · simp [h1]
    by_cases h2 : anyPattern create_patterns m = true
    · simp [h1, h2]
    by_cases h3 : anyPattern read_patterns m = true
    · simp [h1, h2, h3]
    by_cases h4 : anyPattern update_patterns m = true
    · simp [h1, h2, h3, h4]
    by_cases h5 : anyPattern delete_patterns m = true
    · simp [h1, h2, h3, h4, h5]
    by_cases k1 : (isSubstr (cs "complete") m = true ∨ isSubstr (cs "done") m = true
        ∨ isSubstr (cs "finish") m = true)
    · simp [or_assoc, h1, h2, h3, h4, h5, k1]
    by_cases k2 : (isSubstr (cs "add") m = true ∨ isSubstr (cs "create") m = true
        ∨ isSubstr (cs "new") m = true)
    · simp [or_assoc, h1, h2, h3, h4, h5, k1, k2]
    by_cases k3 : (isSubstr (cs "show") m = true ∨ isSubstr (cs "list") m = true
        ∨ isSubstr (cs "view") m = true ∨ isSubstr (cs "see") m = true)
    · simp [or_assoc, h1, h2, h3, h4, h5, k1, k2, k3]
    by_cases k4 : (isSubstr (cs "update") m = true ∨ isSubstr (cs "edit") m = true
        ∨ isSubstr (cs "change") m = true)
    · simp [or_assoc, h1, h2, h3, h4, h5, k1, k2, k3, k4]
    by_cases k5 : (isSubstr (cs "delete") m = true ∨ isSubstr (cs "remove") m = true)
    · simp [or_assoc, h1, h2, h3, h4, h5, k1, k2, k3, k4, k5]
    · simp [or_assoc, h1, h2, h3, h4, h5, k1, k2, k3, k4, k5]

/-- Claim C3: The message `Add buy groceries` classifies as CREATE with
confidence 0.95 ≥ 0.8, the extracted title is `Buy groceries`, and for any
store and resolvable user the pipeline appends exactly one row with that
title, priority Medium, category Personal, no due date and not
completed. -/
theorem C3_add_buy_groceries_pipeline (store : List Todo) (u : List Char) (ctx : Ctx) :
    parse_intent (cs "Add buy groceries") ([] : List TaskSnap)
        = ⟨.CREATE, conf095⟩
      ∧ conf080 ≤ conf095
      ∧ extract_task_title (cs "Add buy groceries") = cs "Buy groceries"
      ∧ (process_message store (some u) (cs "Add buy groceries") [] ctx).2
          = store ++
            [{ id := ctx.freshId, user_id := u, title := cs "Buy groceries"
             , description := some [], is_completed := false
             , priority := some (cs "Medium"), category := some (cs "Personal")
             , due_date := none, created_at := some ctx.now
             , updated_at := some ctx.now }] :=
  ⟨by decide, by decide, by decide, rfl⟩

/-- Claim C7: The `/chat` endpoint boundary always produces the four-field
envelope: it is a total function from the body's outcome — including any
raised exception — into `Envelope`; a caught exception yields exactly the
fixed apology envelope with `action_performed = "NONE"` and
`success = false`, and a successful result dict is completed with the
`result.get` defaults. -/
theorem C7_endpoint_always_envelope :
    (∀ e : List Char, chat_endpoint_result (Except.error e) = apologyEnvelope)
      ∧ apologyEnvelope.action_performed = TaskAction.NONE.value
      ∧ apologyEnvelope.success = false
      ∧ (∀ p : PartialResult,
          chat_endpoint_result (Except.ok p) =
            { reply := p.reply.getD []
            , action_performed := p.action_performed.getD (cs "NONE")
            , updated_tasks := p.updated_tasks.getD []
            , success := p.success.getD true }) :=
  ⟨fun _ => rfl, rfl, rfl, fun _ => rfl⟩

/-- Claim C2: The task matcher used by the complete/update/delete handlers:
(1) a returned task textually matches (its case-folded title occurs inside
the lower-cased message) and is the first such task in the collection's
order, with every earlier task failing the test — no scoring or ranking;
(2) `none` is returned exactly when no task matches; (3) an empty
collection yields `none`; (4) an empty message yields `none` for every
collection of tasks with non-empty titles (the data-model invariant
`title: min_length=1` of src/models/todo.py). -/
theorem C2_find_task_by_mention_spec :
    (∀ (message : List Char) (tasks : List Todo) (t : Todo),
        find_task_by_mention message tasks = some t →
          isSubstr (pyLower t.title) (pyLower message) = true ∧
          ∃ pre post, tasks = pre ++ t :: post ∧
            ∀ u ∈ pre, isSubstr (pyLower u.title) (pyLower message) = false)
  ∧ (∀ (message : List Char) (tasks : List Todo),
        find_task_by_mention message tasks = none ↔
          ∀ t ∈ tasks, isSubstr (pyLower t.title) (pyLower message) = false)
  ∧ (∀ message : List Char, find_task_by_mention message [] = none)
  ∧ (∀ tasks : List Todo, (∀ t ∈ tasks, t.title ≠ []) →
        find_task_by_mention [] tasks = none) := by
  refine ⟨?_, ?_, ?_, ?_⟩
  · intro message tasks t h
    unfold find_task_by_mention at h
    rw [List.find?_eq_some] at h
    obtain ⟨hp, pre, post, rfl, hpre⟩ := h
    refine ⟨hp, pre, post, rfl, fun u hu => ?_⟩
    simpa using hpre u hu
  · intro message tasks
    unfold find_task_by_mention
    rw [List.find?_eq_none]
    constructor
    · intro h t ht
      simpa using h t ht
    · intro h t ht
      simp [h t ht]
  · intro message
    rfl
  · intro tasks h
    unfold find_task_by_mention
    rw [List.find?_eq_none]
    intro t ht hcontra
    cases e : t.title with
    | nil => exact h t ht e
    | cons a as =>
        rw [e] at hcontra
        simp [pyLower, isSubstr, listStartsWith] at hcontra

/-- Reference replacement-title derivation transcribed from the spec's
words for claim C8: whitespace-tokenize the lower-cased message, find the
first occurrence of the literal word `to`, and take everything after it as
the new title; no title results when `to` is absent or nothing follows it
(the empty remainder is falsy in the original). -/
def toSplitRef (message : List Char) : Option (List Char) :=
  match (pySplit (pyLower message)).dropWhile (fun w => !(w == cs "to")) with
  | [] => none
  | _ :: rest => if rest.isEmpty then none else some (joinSpace rest)

/-- The index-based and the dropWhile-based "to"-split agree on any word
list. -/
lemma toSplit_words (ws : List (List Char)) :
    (match ws.findIdx? (fun w => w == cs "to") with
     | none => none
     | some i => if i + 1 < ws.length then some (joinSpace (ws.drop (i + 1))) else none) =
    (match ws.dropWhile (fun w => !(w == cs "to")) with
     | [] => none
     | _ :: rest => if rest.isEmpty then none else some (joinSpace rest)) := by
  induction ws with
  | nil => rfl
  | cons w ws ih =>
      by_cases hw : w == cs "to"
      · simp only [List.findIdx?_cons, hw, if_true, List.dropWhile_cons, Bool.not_true,
          Bool.false_eq_true, if_false, List.drop_succ_cons, List.drop_zero, List.length_cons]
        by_cases hlen : ws.isEmpty
        · cases ws with
          | nil => simp
          | cons a l => simp at hlen
        · cases ws with
          | nil => simp at hlen
          | cons a l => simp
      · simp only [List.findIdx?_cons, hw, Bool.false_eq_true, if_false, List.findIdx?_succ,
          List.dropWhile_cons, Bool.not_false, if_true, List.length_cons]
        rw [← ih]
        cases hidx : ws.findIdx? (fun w => w == cs "to") with
        | none => rfl
        | some i =>
            simp [Nat.succ_lt_succ_iff]

/-- Claim C8: The orchestrator's update path derives the replacement title by
the `to`-delimited split of the lower-cased whitespace-tokenized message
(everything after the first literal `to`), and this secondary strategy is
distinct from the pattern-based `extract_updated_task_title`, which returns
the third capture group when the matching pattern has one, else the second
(capitalized) — witnessed concretely on `change buy milk to get bread`. -/
theorem C8_update_title_to_split :
    (∀ message : List Char, update_new_title message = toSplitRef message)
  ∧ update_new_title (cs "change buy milk to get bread") = some (cs "get bread")
  ∧ extract_updated_task_title (cs "change buy milk to get bread") = some (cs "Get bread")
  ∧ update_new_title (cs "change buy milk to get bread")
      ≠ extract_updated_task_title (cs "change buy milk to get bread") := by
  refine ⟨?_, by decide, by decide, by decide⟩
  intro message
  unfold update_new_title toSplitRef
  exact toSplit_words (pySplit (pyLower message))

/-- Auxiliary for C9: `find?` after an `if`-guarded pointwise rewrite whose
function preserves the predicate. -/
lemma find?_map_ite (p : Todo → Bool) (f : Todo → Todo) (hf : ∀ x, p (f x) = p x) :
    ∀ l : List Todo,
      (l.map (fun x => if p x then f x else x)).find? p = (l.find? p).map f := by
  intro l
  induction l with
  | nil => rfl
  | cons a l ih =>
      by_cases ha : p a
      · simp [List.find?_cons, ha, hf]
      · simp [List.find?_cons, ha, hf, ih]

/-- Claim C9: Toggling a task's completion status twice restores its original
completion state: for any store containing a row with the given key, the
row found after two `toggle_todo_completion` calls carries the original
`is_completed` flag. -/
theorem C9_toggle_completion_involutive (store : List Todo)
    (tid uid now1 now2 : List Char) (t : Todo)
    (h : store.find? (rowKey tid uid) = some t) :
    ((toggle_todo_completion (toggle_todo_completion store tid uid now1) tid uid now2).find?
        (rowKey tid uid)).map (·.is_completed) = some t.is_completed := by
  have hrow1 : ∀ x : Todo,
      rowKey tid uid { x with is_completed := !x.is_completed, updated_at := some now1 }
        = rowKey tid uid x := fun _ => rfl
  have hrow2 : ∀ x : Todo,
      rowKey tid uid { x with is_completed := !x.is_completed, updated_at := some now2 }
        = rowKey tid uid x := fun _ => rfl
  have hp : rowKey tid uid t = true := List.find?_some h
  have e1 : toggle_todo_completion store tid uid now1
      = store.map (fun x => if rowKey tid uid x then
          { x with is_completed := !x.is_completed, updated_at := some now1 } else x) := by
    unfold toggle_todo_completion
    rw [h]
  have h1 : (store.map (fun x => if rowKey tid uid x then
        { x with is_completed := !x.is_completed, updated_at := some now1 } else x)).find?
          (rowKey tid uid)
      = some { t with is_completed := !t.is_completed, updated_at := some now1 } := by
    rw [find?_map_ite _ _ hrow1 store, h]
    simp [hp]
  have e2 : toggle_todo_completion (store.map (fun x => if rowKey tid uid x then
        { x with is_completed := !x.is_completed, updated_at := some now1 } else x)) tid uid now2
      = (store.map (fun x => if rowKey tid uid x then
          { x with is_completed := !x.is_completed, updated_at := some now1 } else x)).map
          (fun x => if rowKey tid uid x then
            { x with is_completed := !x.is_completed, updated_at := some now2 } else x) := by
    unfold toggle_todo_completion
    rw [h1]
  rw [e1, e2, find?_map_ite _ _ hrow2, h1]
  simp [rowKey] at hp
  simp [rowKey, hp]

/-- Test fixture: a snapshot with the given id (and the same text as
title). -/
def snapOf (i : List Char) : TaskSnap :=
  { id := i, user_id := cs "u1", title := i, description := [], is_completed := false
  , priority := cs "Medium", category := cs "Personal", due_date := none
  , created_at := none, updated_at := none }

/-- Test fixture: a row with the given id (and the same text as title). -/
def demoTodo (i : List Char) : Todo :=
  { id := i, user_id := cs "u1", title := i, description := none, is_completed := false
  , priority := none, category := none, due_date := none
  , created_at := none, updated_at := none }

/-- Membership after folding the deletion loop over a list of ids. -/
lemma mem_foldl_delete (uid : List Char) :
    ∀ (ids : List (List Char)) (store : List Todo) (t : Todo),
      t ∈ ids.foldl (fun st i => delete_todo st i uid) store ↔
        t ∈ store ∧ ¬(t.id ∈ ids ∧ t.user_id = uid) := by
  intro ids
  induction ids with
  | nil => intro store t; simp
  | cons i ids ih =>
      intro store t
      rw [List.foldl_cons, ih]
      simp [delete_todo, rowKey, List.mem_filter]
      tauto

/-- Claim C4: Diff reconciliation: `deleted_ids = original_ids − updated_ids`;
on the reference instance `original = {a,b,c}`, `updated = {a,c}` after a
DELETE the store loses exactly row `b`; the authenticated sync step applies
only deletions (its output rows all come from the input store, so no task
in `updated − original` is ever recreated), and for a DELETE or COMPLETE
action a row survives it exactly when it is not owned-and-diffed; the
generic apply-all-diffs endpoint additionally creates exactly the
snapshots with ids in `updated − original` and updates exactly those with
ids present in both. -/
theorem C4_diff_reconciliation :
    compute_deleted_ids [snapOf (cs "a"), snapOf (cs "b"), snapOf (cs "c")]
        [snapOf (cs "a"), snapOf (cs "c")] = [cs "b"]
  ∧ sync_after_chat true (cs "DELETE") true
        [demoTodo (cs "a"), demoTodo (cs "b"), demoTodo (cs "c")] (cs "u1")
        [snapOf (cs "a"), snapOf (cs "b"), snapOf (cs "c")]
        [snapOf (cs "a"), snapOf (cs "c")]
      = [demoTodo (cs "a"), demoTodo (cs "c")]
  ∧ (∀ (success : Bool) (action : List Char) (hasToken : Bool) (store : List Todo)
        (uid : List Char) (original updated : List TaskSnap) (t : Todo),
      t ∈ sync_after_chat success action hasToken store uid original updated → t ∈ store)
  ∧ (∀ (action : List Char) (store : List Todo) (uid : List Char)
        (original updated : List TaskSnap),
      (action = cs "DELETE" ∨ action = cs "COMPLETE") →
      ∀ t : Todo,
        t ∈ sync_after_chat true action true store uid original updated ↔
          t ∈ store ∧ ¬(t.id ∈ compute_deleted_ids original updated ∧ t.user_id = uid))
  ∧ (∀ (original updated : List TaskSnap) (s : TaskSnap),
      (s ∈ (apply_all_diffs_ops original updated).creates ↔
        s ∈ updated ∧ s.id ∉ original.map TaskSnap.id)
      ∧ (s ∈ (apply_all_diffs_ops original updated).updates ↔
        s ∈ updated ∧ s.id ∈ original.map TaskSnap.id)
      ∧ (apply_all_diffs_ops original updated).deletes
          = compute_deleted_ids original updated) := by
  refine ⟨by decide, by decide, ?_, ?_, ?_⟩
  · intro success action hasToken store uid original updated t ht
    unfold sync_after_chat at ht
    by_cases hg : (success && (action == cs "DELETE" || action == cs "COMPLETE") && hasToken)
        = true
    · rw [if_pos hg] at ht
      exact ((mem_foldl_delete uid _ store t).mp ht).1
    · rwa [if_neg hg] at ht
  · intro action store uid original updated ha t
    unfold sync_after_chat
    have hg : (true && (action == cs "DELETE" || action == cs "COMPLETE") && true) = true := by
      rcases ha with h | h <;> subst h <;> decide
    rw [if_pos hg]
    exact mem_foldl_delete uid _ store t
  · intro original updated s
    refine ⟨?_, ?_, rfl⟩
    · unfold apply_all_diffs_ops
      simp [List.mem_filter, List.elem_iff]
    · unfold apply_all_diffs_ops
      simp [List.mem_filter, List.elem_iff]

/-- The refusal reply each dispatched handler returns when the user context
is unresolvable (read handler says `access`, complete and update say
`update`, the others name their own verb); the NONE arm is the general
reply of the dispatcher's dead default branch. -/
def refusalFor : TaskAction → List Char
  | .CREATE => refusalCreate
  | .READ => refusalRead
  | .COMPLETE => refusalUpdate
  | .UPDATE => refusalUpdate
  | .DELETE => refusalDelete
  | .NONE => generalReply

/-- Claim C6: When the user id is not a valid UUID (`uid = none`) and the
classifier dispatches a CRUD action, the store is untouched, the envelope
still reports `success = true`, and the reply is the handler's fixed
refusal. -/
theorem C6_unresolvable_identity_refusal (store : List Todo) (message : List Char)
    (current_tasks : List TaskSnap) (ctx : Ctx)
    (hcond : ((parse_intent message current_tasks).action == TaskAction.NONE
      || decide ((parse_intent message current_tasks).confidence < conf050)) = false) :
    (process_message store none message current_tasks ctx).2 = store
  ∧ (process_message store none message current_tasks ctx).1.success = true
  ∧ (process_message store none message current_tasks ctx).1.reply
      = refusalFor (parse_intent message current_tasks).action := by
  unfold process_message tasksForProcessing
  simp only [hcond, Bool.false_eq_true, if_false]
  cases hact : (parse_intent message current_tasks).action <;>
    simp [hact, handle_create_task, handle_read_tasks, handle_complete_task,
      handle_update_task, handle_delete_task, refusalFor]

/-- Claim C5: A dispatched DELETE or COMPLETE whose mentioned task is not
found in the re-fetched persisted collection performs no storage mutation
and produces the "couldn't find that task" reply listing the current
tasks, with `success = true` and `updated_tasks` equal to the persisted
collection. -/
theorem C5_not_found_is_harmless (store : List Todo) (u message : List Char)
    (current_tasks : List TaskSnap) (ctx : Ctx)
    (hact : (parse_intent message (tasksForProcessing store (some u) current_tasks)).action
          = TaskAction.COMPLETE
        ∨ (parse_intent message (tasksForProcessing store (some u) current_tasks)).action
          = TaskAction.DELETE)
    (hconf : conf050
      ≤ (parse_intent message (tasksForProcessing store (some u) current_tasks)).confidence)
    (hnf : find_task_by_mention message (get_todos_by_user store u) = none) :
    (process_message store (some u) message current_tasks ctx).2 = store
  ∧ (process_message store (some u) message current_tasks ctx).1 =
      { reply := notFoundReply ((get_todos_by_user store u).map todoToFmt)
      , action_performed :=
          (parse_intent message (tasksForProcessing store (some u) current_tasks)).action.value
      , updated_tasks := todos_to_dicts (get_todos_by_user store u)
      , success := true } := by
  have hc1 : ((parse_intent message (tasksForProcessing store (some u) current_tasks)).action
      == TaskAction.NONE) = false := by
    rcases hact with h | h <;> rw [h] <;> rfl
  have hc2 : (decide ((parse_intent message
      (tasksForProcessing store (some u) current_tasks)).confidence < conf050)) = false := by
    simpa using not_lt.mpr hconf
  unfold process_message
  simp only [hc1, hc2, Bool.or_self, Bool.false_eq_true, if_false]
  rcases hact with h | h <;>
    simp [h, handle_complete_task, handle_delete_task, hnf]

/-- The canned common-question responder always carries the supplied task
collection and `success = true` in any envelope it returns. -/
lemma answer_common_questions_frame (message : List Char) (ts : List TaskSnap)
    (env : Envelope) (h : answer_common_questions message ts = some env) :
    env.updated_tasks = ts ∧ env.success = true := by
  simp only [answer_common_questions] at h
  repeat' split at h
  all_goals simp_all
  all_goals (rw [← h]; exact ⟨rfl, rfl⟩)

/-- Claim C10: Every invocation that does not dispatch a CRUD action (the
classified action is NONE or the confidence is below 0.5 — the greeting,
common-question, keyword-read, guidance and random-fallback branches)
leaves the store untouched and returns an envelope whose `updated_tasks`
is exactly the collection that entered processing, with `success =
true`. -/
theorem C10_none_branch_frame (store : List Todo) (uid : Option (List Char))
    (message : List Char) (current_tasks : List TaskSnap) (ctx : Ctx)
    (hcond : (parse_intent message (tasksForProcessing store uid current_tasks)).action
          = TaskAction.NONE
        ∨ (parse_intent message (tasksForProcessing store uid current_tasks)).confidence
          < conf050) :
    (process_message store uid message current_tasks ctx).2 = store
  ∧ (process_message store uid message current_tasks ctx).1.updated_tasks
      = tasksForProcessing store uid current_tasks
  ∧ (process_message store uid message current_tasks ctx).1.success = true := by
  have hB : ((parse_intent message (tasksForProcessing store uid current_tasks)).action
      == TaskAction.NONE
      || decide ((parse_intent message
            (tasksForProcessing store uid current_tasks)).confidence < conf050)) = true := by
    rcases hcond with h | h
    · simp [h]
    · simp [h]
  unfold process_message
  simp only [hB, if_true]
  by_cases hg : (is_greeting message && uid.isSome) = true
  · simp [hg]
  · simp only [hg, Bool.false_eq_true, if_false]
    cases hc : answer_common_questions message (tasksForProcessing store uid current_tasks) with
    | some env =>
        have hf := answer_common_questions_frame message _ env hc
        simp [hc, hf.1, hf.2]
    | none =>
        simp only [hc]
        by_cases hr : readKeywordFallback message = true
        · simp [hr]
        · simp only [hr, Bool.false_eq_true, if_false]
          by_cases hgd : is_guidance_request message = true
          · simp [hgd, provide_guidance]
          · simp [hgd, handle_fallback_response]

/-! ## Concrete witnesses -/

/-- A fixed context for concrete runs. -/
def ctxW : Ctx := { emoji := cs "😊", now := cs "2026-01-01T00:00:00"
                  , freshId := cs "new-id", rand := 0 }

/-- Witness for C2: the matcher finds `pay bills` inside
`delete pay bills` as the first (only) match, and an empty message matches
nothing. -/
theorem C2_witness :
    (isSubstr (pyLower (demoTodo (cs "pay bills")).title) (pyLower (cs "delete pay bills"))
        = true
      ∧ ∃ pre post, [demoTodo (cs "pay bills")] = pre ++ demoTodo (cs "pay bills") :: post
        ∧ ∀ u ∈ pre, isSubstr (pyLower u.title) (pyLower (cs "delete pay bills")) = false)
  ∧ find_task_by_mention [] [demoTodo (cs "x")] = none :=
  ⟨C2_find_task_by_mention_spec.1 (cs "delete pay bills") [demoTodo (cs "pay bills")]
      (demoTodo (cs "pay bills")) (by decide),
   C2_find_task_by_mention_spec.2.2.2 [demoTodo (cs "x")] (by decide)⟩

/-- Witness for C4: row `a` survives the reference DELETE sync, hence was in
the original store. -/
theorem C4_witness :
    demoTodo (cs "a") ∈ [demoTodo (cs "a"), demoTodo (cs "b"), demoTodo (cs "c")] :=
  C4_diff_reconciliation.2.2.1 true (cs "DELETE") true
    [demoTodo (cs "a"), demoTodo (cs "b"), demoTodo (cs "c")] (cs "u1")
    [snapOf (cs "a"), snapOf (cs "b"), snapOf (cs "c")]
    [snapOf (cs "a"), snapOf (cs "c")]
    (demoTodo (cs "a")) (by decide)

/-- Witness for C5: `Delete buy groceries` against a store holding only
`pay bills`. -/
theorem C5_witness :
    (process_message [demoTodo (cs "pay bills")] (some (cs "u1"))
        (cs "Delete buy groceries") [] ctxW).2 = [demoTodo (cs "pay bills")]
  ∧ (process_message [demoTodo (cs "pay bills")] (some (cs "u1"))
        (cs "Delete buy groceries") [] ctxW).1 =
      { reply := notFoundReply
          ((get_todos_by_user [demoTodo (cs "pay bills")] (cs "u1")).map todoToFmt)
      , action_performed :=
          (parse_intent (cs "Delete buy groceries")
            (tasksForProcessing [demoTodo (cs "pay bills")] (some (cs "u1")) [])).action.value
      , updated_tasks := todos_to_dicts (get_todos_by_user [demoTodo (cs "pay bills")] (cs "u1"))
      , success := true } :=
  C5_not_found_is_harmless [demoTodo (cs "pay bills")] (cs "u1") (cs "Delete buy groceries")
    [] ctxW (Or.inr (by decide)) (by decide) (by decide)

/-- Witness for C6: `delete x` with an unresolvable user. -/
theorem C6_witness :
    (process_message [demoTodo (cs "a")] none (cs "delete x") [] ctxW).2 = [demoTodo (cs "a")]
  ∧ (process_message [demoTodo (cs "a")] none (cs "delete x") [] ctxW).1.success = true
  ∧ (process_message [demoTodo (cs "a")] none (cs "delete x") [] ctxW).1.reply
      = refusalFor (parse_intent (cs "delete x") ([] : List TaskSnap)).action :=
  C6_unresolvable_identity_refusal [demoTodo (cs "a")] (cs "delete x") [] ctxW (by decide)

/-- Witness for C9: double toggle of the row `a`. -/
theorem C9_witness :
    ((toggle_todo_completion
        (toggle_todo_completion [demoTodo (cs "a")] (cs "a") (cs "u1") (cs "n1"))
        (cs "a") (cs "u1") (cs "n2")).find? (rowKey (cs "a") (cs "u1"))).map (·.is_completed)
      = some (demoTodo (cs "a")).is_completed :=
  C9_toggle_completion_involutive [demoTodo (cs "a")] (cs "a") (cs "u1") (cs "n1") (cs "n2")
    (demoTodo (cs "a")) (by decide)

/-- Witness for C10: the empty message lands in a non-CRUD branch and
leaves everything unchanged. -/
theorem C10_witness :
    (process_message [demoTodo (cs "a")] (some (cs "u1")) (cs "") [] ctxW).2
      = [demoTodo (cs "a")]
  ∧ (process_message [demoTodo (cs "a")] (some (cs "u1")) (cs "") [] ctxW).1.updated_tasks
      = tasksForProcessing [demoTodo (cs "a")] (some (cs "u1")) []
  ∧ (process_message [demoTodo (cs "a")] (some (cs "u1")) (cs "") [] ctxW).1.success = true :=
  C10_none_branch_frame [demoTodo (cs "a")] (some (cs "u1")) (cs "") [] ctxW
    (Or.inl (by decide))

end TaskBox
